import Mathlib

/-!
Verification of the transactional fund-transfer workflow of the
`t-sqlalchemy` repository.

The development shallowly embeds the two transaction scripts

  * `01-getting-started-with-sqlalchemy-core/04-transactions-with-sqlalchemy-core-sqlite.py`
    (functions `setup_accounts_table`, `get_account_balances`, `transfer_funds`,
    and the `__main__` block), and
  * `02-getting-started-with-sqlalchemy-orm/04-handling-transactions-with-orm-sqlite.py`
    (functions `setup_accounts_orm_table`, `get_account_balances_orm`,
    `transfer_funds_orm`, and the `__main__` block).

The database is modelled as a list of account rows.  A transaction is a
computation of type `Except TransferError DB`: an `.ok` result is the state
the commit makes durable, an `.error` result is an exception reaching the
`except` clause, whereupon the script rolls the transaction back and the
durable state is unchanged.  SQL statements are modelled row by row:
`UPDATE ... WHERE account_number = :acc` maps over every matching row
(`applyUpdate`), the ORM's identity-map mutation of the object returned by
`.first()` updates the first matching row (`applyUpdateFirst`), `SELECT`
with a filter returns the first matching row (`findAccount`), and the
unique constraint on `account_number` makes an `INSERT` of a duplicate
number raise `IntegrityError` at commit/execute time.
-/

/-- A row of the `accounts` table: `account_number` is declared `unique`,
`balance` is an `Integer` column.  The surrogate `id` column is never
consulted by the transfer logic and is omitted. -/
structure Account where
  account_number : String
  balance : Int
deriving DecidableEq, Repr

/-- The committed state of the `accounts` table, as a list of rows in
insertion order. -/
abbrev DB := List Account

/-- The multiset of account numbers present, in row order. -/
def accountNumbers (db : DB) : List String :=
  db.map Account.account_number

/-- First row whose `account_number` equals `acc`: the embedding of
`SELECT ... WHERE account_number = :acc ... .first()`. -/
def findAccount : DB → String → Option Account
  | [], _ => none
  | a :: rest, acc =>
    if a.account_number = acc then some a else findAccount rest acc

/-- Number of rows matched by `WHERE account_number = :acc`, the
`rowcount` reported for such an `UPDATE`. -/
def rowcount : DB → String → Nat
  | [], _ => 0
  | a :: rest, acc =>
    (if a.account_number = acc then 1 else 0) + rowcount rest acc

/-- Embedding of `UPDATE accounts SET balance = f(balance) WHERE
account_number = :acc`: every matching row is updated. -/
def applyUpdate : DB → String → (Int → Int) → DB
  | [], _, _ => []
  | a :: rest, acc, f =>
    (if a.account_number = acc then { a with balance := f a.balance } else a)
      :: applyUpdate rest acc f

/-- Embedding of mutating, through the ORM identity map, the object
returned by `.filter_by(account_number=acc).first()`: only the first
matching row is updated. -/
def applyUpdateFirst : DB → String → (Int → Int) → DB
  | [], _, _ => []
  | a :: rest, acc, f =>
    if a.account_number = acc then { a with balance := f a.balance } :: rest
    else a :: applyUpdateFirst rest acc f

/-- The exceptions that can cross the `try` block of either transfer
function.  `sourceNotFound`, `insufficientFunds` and `destNotFound` are the
three `ValueError`s raised explicitly; `simulatedFailure` is the bare
`Exception` raised by the Core fault path; `integrityError` is the
`IntegrityError` raised when an `INSERT` violates the unique constraint on
`account_number`. -/
inductive TransferError where
  | sourceNotFound
  | insufficientFunds
  | destNotFound
  | simulatedFailure
  | integrityError
deriving DecidableEq, Repr

/-- Whether an error is one of the two NotFound-class failures. -/
def TransferError.isNotFound : TransferError → Bool
  | .sourceNotFound => true
  | .destNotFound => true
  | _ => false

/-- Observable outcome of one transfer invocation. -/
inductive Outcome where
  | committed
  | rolledBack (e : TransferError)
deriving DecidableEq, Repr

/-- The `try` block of `transfer_funds` (Core script, lines 64-93):
deduct from the source by a conditional `UPDATE` and fail on zero rows
matched; if `should_fail`, insert a row numbered `ACC999` (which raises
`IntegrityError` only when `ACC999` already exists) and then raise the
simulated `Exception`; otherwise credit the destination by the same
conditional-`UPDATE` pattern and commit. -/
def transfer_funds_attempt (db : DB) (from_acc_number to_acc_number : String)
    (amount : Int) (should_fail : Bool) : Except TransferError DB :=
  let db1 := applyUpdate db from_acc_number (fun b => b - amount)
  if rowcount db from_acc_number = 0 then
    .error .sourceNotFound
  else if should_fail then
    if "ACC999" ∈ accountNumbers db1 then .error .integrityError
    else .error .simulatedFailure
  else
    let db2 := applyUpdate db1 to_acc_number (fun b => b + amount)
    if rowcount db1 to_acc_number = 0 then .error .destNotFound
    else .ok db2

/-- `transfer_funds` (Core script, lines 60-102): the `except
(IntegrityError, ValueError, Exception)` clause catches every exception the
`try` block can raise and rolls the transaction back, so the function
always returns normally; on rollback the durable state is the input
state. -/
def transfer_funds (db : DB) (from_acc_number to_acc_number : String)
    (amount : Int) (should_fail : Bool) : DB × Outcome :=
  match transfer_funds_attempt db from_acc_number to_acc_number amount should_fail with
  | .ok db2 => (db2, .committed)
  | .error e => (db, .rolledBack e)

/-- The `try` block of `transfer_funds_orm` (ORM script, lines 69-95):
look up the source row (`ValueError` if absent), check
`from_account.balance < amount` (`ValueError` if insufficient), look up the
destination row (`ValueError` if absent), mutate both mapped objects, and,
when `should_fail`, add a new `Account(account_number='ACC001',
balance=999)` so that the flush at commit raises `IntegrityError` exactly
when an `ACC001` row already exists. -/
def transfer_funds_orm_attempt (db : DB) (from_account_number to_account_number : String)
    (amount : Int) (should_fail : Bool) : Except TransferError DB :=
  match findAccount db from_account_number with
  | none => .error .sourceNotFound
  | some from_account =>
    if from_account.balance < amount then
      .error .insufficientFunds
    else
      match findAccount db to_account_number with
      | none => .error .destNotFound
      | some _ =>
        let db1 := applyUpdateFirst db from_account_number (fun b => b - amount)
        let db2 := applyUpdateFirst db1 to_account_number (fun b => b + amount)
        if should_fail then
          if "ACC001" ∈ accountNumbers db2 then .error .integrityError
          else .ok (db2 ++ [{ account_number := "ACC001", balance := 999 }])
        else .ok db2

/-- `transfer_funds_orm` (ORM script, lines 63-103): the two `except`
clauses (`(ValueError, IntegrityError)` and the catch-all `Exception`)
together catch every exception of the `try` block and call
`session.rollback()`, so the function always returns normally and on
rollback the durable state is the input state. -/
def transfer_funds_orm (db : DB) (from_account_number to_account_number : String)
    (amount : Int) (should_fail : Bool) : DB × Outcome :=
  match transfer_funds_orm_attempt db from_account_number to_account_number amount should_fail with
  | .ok db2 => (db2, .committed)
  | .error e => (db, .rolledBack e)

/-- Comparison of rows by `account_number`, the `ORDER BY` key of both
balance readers. -/
def byAccountNumber (a b : Account) : Prop :=
  a.account_number ≤ b.account_number

instance : DecidableRel byAccountNumber :=
  fun a b => inferInstanceAs (Decidable (a.account_number ≤ b.account_number))

instance : IsTotal Account byAccountNumber :=
  ⟨fun a b => le_total a.account_number b.account_number⟩

instance : IsTrans Account byAccountNumber :=
  ⟨fun _ _ _ h1 h2 => le_trans h1 h2⟩

/-- `get_account_balances` (Core script, lines 50-57): `SELECT * FROM
accounts ORDER BY account_number`.  The first component is the returned row
sequence, the second the store after the read (a `SELECT` mutates
nothing). -/
def get_account_balances (db : DB) : List Account × DB :=
  (List.insertionSort byAccountNumber db, db)

/-- `get_account_balances_orm` (ORM script, lines 53-60):
`session.query(Account).order_by(Account.account_number).all()`, likewise a
pure read. -/
def get_account_balances_orm (db : DB) : List Account × DB :=
  (List.insertionSort byAccountNumber db, db)

/-- The seed rows inserted by `setup_accounts_table` (Core script, lines
39-48). -/
def initial_accounts : DB :=
  [⟨"ACC001", 1000⟩, ⟨"ACC002", 2000⟩, ⟨"ACC003", 3000⟩]

/-- The seed rows inserted by `setup_accounts_orm_table` (ORM script,
lines 41-48). -/
def initial_accounts_orm : DB :=
  [⟨"ACC001", 1000⟩, ⟨"ACC002", 500⟩, ⟨"ACC003", 200⟩]

/-- The balances the spec expects after the Core script's first
demonstration transfer (100 from `ACC001` to `ACC002`). -/
def accounts_after_first_transfer : DB :=
  [⟨"ACC001", 900⟩, ⟨"ACC002", 2100⟩, ⟨"ACC003", 3000⟩]

/-- The body of the Core script's `__main__` block (lines 106-127): engine
creation, provisioning, and the three demonstration transfers.  A
store-level failure (connectivity loss etc.) raised by any step is injected
through `storeFault` and aborts the body with that exception. -/
def core_script_body (storeFault : Option String) : Except String DB :=
  match storeFault with
  | some e => .error e
  | none =>
    let r1 := transfer_funds initial_accounts "ACC001" "ACC002" 100 false
    let r2 := transfer_funds r1.1 "ACC001" "ACC003" 50 true
    let r3 := transfer_funds r2.1 "NON_EXISTENT_ACC" "ACC002" 100 false
    .ok r3.1

/-- Process exit status of the Core script: its body is wrapped in `try:
... except Exception as e: print(...)` (lines 106-130); the handler prints
the error and the script then ends normally, so the interpreter exits with
status 0 on both paths. -/
def core_script_exit_code (storeFault : Option String) : Nat :=
  match core_script_body storeFault with
  | .ok _ => 0
  | .error _ => 0

/-- Whether an exception escapes the Core script's `__main__` to the
process boundary: never, because the catch-all handles every
`Exception`. -/
def core_script_uncaught (storeFault : Option String) : Bool :=
  match core_script_body storeFault with
  | .ok _ => false
  | .error _ => false

/-- The body of the ORM script's `__main__` block (lines 107-118):
provisioning and the three demonstration transfers, with the same
store-fault injection point. -/
def orm_script_body (storeFault : Option String) : Except String DB :=
  match storeFault with
  | some e => .error e
  | none =>
    let r1 := transfer_funds_orm initial_accounts_orm "ACC001" "ACC002" 200 false
    let r2 := transfer_funds_orm r1.1 "ACC001" "ACC003" 500 true
    let r3 := transfer_funds_orm r2.1 "NONEXISTENT" "ACC001" 100 false
    .ok r3.1

/-- Process exit status of the ORM script: its `__main__` block has no
`try`/`except` wrapper, so an exception raised by the body propagates to
the interpreter, which prints a raw traceback and exits with status 1. -/
def orm_script_exit_code (storeFault : Option String) : Nat :=
  match orm_script_body storeFault with
  | .ok _ => 0
  | .error _ => 1

/-- Whether an exception escapes the ORM script's `__main__` to the process
boundary: exactly when the body raises. -/
def orm_script_uncaught (storeFault : Option String) : Bool :=
  match orm_script_body storeFault with
  | .ok _ => false
  | .error _ => true

example :
    transfer_funds initial_accounts "ACC001" "ACC002" 100 false =
      ([⟨"ACC001", 900⟩, ⟨"ACC002", 2100⟩, ⟨"ACC003", 3000⟩], .committed) := by
  decide

/-! Auxiliary lemmas about the row-level operations. -/

theorem accountNumbers_applyUpdate (db : DB) (acc : String) (f : Int → Int) :
    accountNumbers (applyUpdate db acc f) = accountNumbers db := by
  induction db with
  | nil => rfl
  | cons a rest ih =>
    by_cases h : a.account_number = acc <;>
      simpa [applyUpdate, accountNumbers, h] using ih

theorem accountNumbers_applyUpdateFirst (db : DB) (acc : String) (f : Int → Int) :
    accountNumbers (applyUpdateFirst db acc f) = accountNumbers db := by
  induction db with
  | nil => rfl
  | cons a rest ih =>
    by_cases h : a.account_number = acc
    · simp [applyUpdateFirst, accountNumbers, h]
    · simpa [applyUpdateFirst, accountNumbers, h] using ih

theorem rowcount_applyUpdate (db : DB) (acc x : String) (f : Int → Int) :
    rowcount (applyUpdate db acc f) x = rowcount db x := by
  induction db with
  | nil => rfl
  | cons a rest ih =>
    by_cases h : a.account_number = acc <;>
      simp [applyUpdate, rowcount, h, ih]

theorem rowcount_eq_zero_iff (db : DB) (x : String) :
    rowcount db x = 0 ↔ findAccount db x = none := by
  induction db with
  | nil => simp [rowcount, findAccount]
  | cons a rest ih =>
    by_cases h : a.account_number = x <;>
      simp [rowcount, findAccount, h, ih]

theorem findAccount_applyUpdate_ne (db : DB) (acc x : String) (f : Int → Int)
    (hne : x ≠ acc) :
    findAccount (applyUpdate db acc f) x = findAccount db x := by
  induction db with
  | nil => rfl
  | cons a rest ih =>
    by_cases h : a.account_number = acc
    · have hx : a.account_number ≠ x := fun hc => hne (hc.symm.trans h)
      simp [applyUpdate, findAccount, h, hx, ih, Ne.symm hne]
    · by_cases hx : a.account_number = x
      · simp [applyUpdate, findAccount, h, hx, hne]
      · simp [applyUpdate, findAccount, h, hx, ih]

theorem findAccount_applyUpdate_self (db : DB) (acc : String) (f : Int → Int) :
    findAccount (applyUpdate db acc f) acc =
      (findAccount db acc).map (fun a => { a with balance := f a.balance }) := by
  induction db with
  | nil => rfl
  | cons a rest ih =>
    by_cases h : a.account_number = acc <;>
      simp [applyUpdate, findAccount, h, ih]

theorem findAccount_applyUpdateFirst_ne (db : DB) (acc x : String) (f : Int → Int)
    (hne : x ≠ acc) :
    findAccount (applyUpdateFirst db acc f) x = findAccount db x := by
  induction db with
  | nil => rfl
  | cons a rest ih =>
    by_cases h : a.account_number = acc
    · have hx : a.account_number ≠ x := fun hc => hne (hc.symm.trans h)
      simp [applyUpdateFirst, findAccount, h, hx, ih, Ne.symm hne]
    · by_cases hx : a.account_number = x
      · simp [applyUpdateFirst, findAccount, h, hx, hne]
      · simp [applyUpdateFirst, findAccount, h, hx, ih]

theorem findAccount_applyUpdateFirst_self (db : DB) (acc : String) (f : Int → Int) :
    findAccount (applyUpdateFirst db acc f) acc =
      (findAccount db acc).map (fun a => { a with balance := f a.balance }) := by
  induction db with
  | nil => rfl
  | cons a rest ih =>
    by_cases h : a.account_number = acc <;>
      simp [applyUpdateFirst, findAccount, h, ih]

theorem findAccount_append_left (l r : DB) (x : String) (b : Account)
    (h : findAccount l x = some b) :
    findAccount (l ++ r) x = some b := by
  induction l with
  | nil => simp [findAccount] at h
  | cons a rest ih =>
    by_cases ha : a.account_number = x <;>
      simp [findAccount, ha] at h ⊢
    · exact h
    · exact ih h

theorem findAccount_some_number (db : DB) (x : String) (a : Account)
    (h : findAccount db x = some a) : a.account_number = x := by
  induction db with
  | nil => simp [findAccount] at h
  | cons b rest ih =>
    by_cases hb : b.account_number = x <;> simp [findAccount, hb] at h
    · rw [← h]; exact hb
    · exact ih h

theorem applyUpdate_applyUpdate_self (db : DB) (acc : String) (g1 g2 : Int → Int) :
    applyUpdate (applyUpdate db acc g1) acc g2 =
      applyUpdate db acc (fun b => g2 (g1 b)) := by
  induction db with
  | nil => rfl
  | cons a rest ih =>
    by_cases h : a.account_number = acc <;>
      simp [applyUpdate, h, ih]

theorem applyUpdate_id (db : DB) (acc : String) (f : Int → Int)
    (hf : ∀ b, f b = b) : applyUpdate db acc f = db := by
  induction db with
  | nil => rfl
  | cons a rest ih =>
    by_cases h : a.account_number = acc
    · simp [applyUpdate, h, hf, ih]
      rw [← h]
    · simp [applyUpdate, h, hf, ih]

theorem applyUpdateFirst_applyUpdateFirst_self (db : DB) (acc : String)
    (g1 g2 : Int → Int) :
    applyUpdateFirst (applyUpdateFirst db acc g1) acc g2 =
      applyUpdateFirst db acc (fun b => g2 (g1 b)) := by
  induction db with
  | nil => rfl
  | cons a rest ih =>
    by_cases h : a.account_number = acc <;>
      simp [applyUpdateFirst, h, ih]

theorem applyUpdateFirst_id (db : DB) (acc : String) (f : Int → Int)
    (hf : ∀ b, f b = b) : applyUpdateFirst db acc f = db := by
  induction db with
  | nil => rfl
  | cons a rest ih =>
    by_cases h : a.account_number = acc
    · simp [applyUpdateFirst, h, hf, ih]
      rw [← h]
    · simp [applyUpdateFirst, h, hf, ih]

/-! Characterizations of the possible results of the two transfer
functions. -/

theorem transfer_funds_committed_iff (db : DB) (f t : String) (a : Int) (sf : Bool)
    (db' : DB) :
    transfer_funds db f t a sf = (db', .committed) ↔
      sf = false ∧ rowcount db f ≠ 0 ∧ rowcount db t ≠ 0 ∧
        db' = applyUpdate (applyUpdate db f (fun b => b - a)) t (fun b => b + a) := by
  by_cases h1 : rowcount db f = 0
  · simp [transfer_funds, transfer_funds_attempt, h1]
  · cases sf with
    | false =>
      by_cases h2 : rowcount db t = 0
      · have h2' : rowcount (applyUpdate db f (fun b => b - a)) t = 0 := by
          rw [rowcount_applyUpdate]; exact h2
        simp [transfer_funds, transfer_funds_attempt, h1, h2, h2']
      · have h2' : ¬ rowcount (applyUpdate db f (fun b => b - a)) t = 0 := by
          rw [rowcount_applyUpdate]; exact h2
        simp [transfer_funds, transfer_funds_attempt, h1, h2, h2', eq_comm]
    | true =>
      by_cases h3 : "ACC999" ∈ accountNumbers (applyUpdate db f (fun b => b - a)) <;>
        simp [transfer_funds, transfer_funds_attempt, h1, h3]

theorem transfer_funds_fault_fst (db : DB) (f t : String) (a : Int) :
    (transfer_funds db f t a true).1 = db := by
  by_cases h1 : rowcount db f = 0 <;>
    by_cases h3 : "ACC999" ∈ accountNumbers (applyUpdate db f (fun b => b - a)) <;>
      simp [transfer_funds, transfer_funds_attempt, h1, h3]

theorem transfer_funds_sourceNotFound (db : DB) (f t : String) (a : Int) (sf : Bool)
    (h : findAccount db f = none) :
    transfer_funds db f t a sf = (db, .rolledBack .sourceNotFound) := by
  have h0 : rowcount db f = 0 := (rowcount_eq_zero_iff db f).mpr h
  simp [transfer_funds, transfer_funds_attempt, h0]

theorem transfer_funds_destNotFound (db : DB) (f t : String) (a : Int)
    (hf : rowcount db f ≠ 0) (ht : findAccount db t = none) :
    transfer_funds db f t a false = (db, .rolledBack .destNotFound) := by
  have h0 : rowcount (applyUpdate db f (fun b => b - a)) t = 0 := by
    rw [rowcount_applyUpdate]; exact (rowcount_eq_zero_iff db t).mpr ht
  simp [transfer_funds, transfer_funds_attempt, hf, h0]

theorem transfer_funds_fault_simulated (db : DB) (f t : String) (a : Int)
    (hf : rowcount db f ≠ 0) (h999 : "ACC999" ∉ accountNumbers db) :
    transfer_funds db f t a true = (db, .rolledBack .simulatedFailure) := by
  have h3 : "ACC999" ∉ accountNumbers (applyUpdate db f (fun b => b - a)) := by
    rw [accountNumbers_applyUpdate]; exact h999
  simp [transfer_funds, transfer_funds_attempt, hf, h3]

theorem transfer_funds_orm_sourceNotFound (db : DB) (f t : String) (a : Int)
    (sf : Bool) (h : findAccount db f = none) :
    transfer_funds_orm db f t a sf = (db, .rolledBack .sourceNotFound) := by
  simp [transfer_funds_orm, transfer_funds_orm_attempt, h]

theorem transfer_funds_orm_insufficient (db : DB) (f t : String) (a : Int)
    (sf : Bool) (fa : Account) (h : findAccount db f = some fa)
    (hlt : fa.balance < a) :
    transfer_funds_orm db f t a sf = (db, .rolledBack .insufficientFunds) := by
  simp [transfer_funds_orm, transfer_funds_orm_attempt, h, hlt]

theorem transfer_funds_orm_destNotFound (db : DB) (f t : String) (a : Int)
    (sf : Bool) (fa : Account) (h : findAccount db f = some fa)
    (hge : ¬ fa.balance < a) (ht : findAccount db t = none) :
    transfer_funds_orm db f t a sf = (db, .rolledBack .destNotFound) := by
  simp [transfer_funds_orm, transfer_funds_orm_attempt, h, hge, ht]

theorem transfer_funds_orm_commit_nofault (db : DB) (f t : String) (a : Int)
    (fa ta : Account) (h : findAccount db f = some fa) (hge : ¬ fa.balance < a)
    (ht : findAccount db t = some ta) :
    transfer_funds_orm db f t a false =
      (applyUpdateFirst (applyUpdateFirst db f (fun b => b - a)) t (fun b => b + a),
        .committed) := by
  simp [transfer_funds_orm, transfer_funds_orm_attempt, h, hge, ht]

theorem transfer_funds_orm_fault_rollback (db : DB) (f t : String) (a : Int)
    (fa ta : Account) (h : findAccount db f = some fa) (hge : ¬ fa.balance < a)
    (ht : findAccount db t = some ta) (hdup : "ACC001" ∈ accountNumbers db) :
    transfer_funds_orm db f t a true = (db, .rolledBack .integrityError) := by
  have hdup2 : "ACC001" ∈ accountNumbers
      (applyUpdateFirst (applyUpdateFirst db f (fun b => b - a)) t (fun b => b + a)) := by
    rw [accountNumbers_applyUpdateFirst, accountNumbers_applyUpdateFirst]; exact hdup
  simp [transfer_funds_orm, transfer_funds_orm_attempt, h, hge, ht, hdup2]

theorem transfer_funds_orm_fault_commit (db : DB) (f t : String) (a : Int)
    (fa ta : Account) (h : findAccount db f = some fa) (hge : ¬ fa.balance < a)
    (ht : findAccount db t = some ta) (hdup : "ACC001" ∉ accountNumbers db) :
    transfer_funds_orm db f t a true =
      (applyUpdateFirst (applyUpdateFirst db f (fun b => b - a)) t (fun b => b + a)
        ++ [{ account_number := "ACC001", balance := 999 }], .committed) := by
  have hdup2 : "ACC001" ∉ accountNumbers
      (applyUpdateFirst (applyUpdateFirst db f (fun b => b - a)) t (fun b => b + a)) := by
    rw [accountNumbers_applyUpdateFirst, accountNumbers_applyUpdateFirst]; exact hdup
  simp [transfer_funds_orm, transfer_funds_orm_attempt, h, hge, ht, hdup2]

theorem transfer_funds_orm_fault_fst (db : DB) (f t : String) (a : Int)
    (hdup : "ACC001" ∈ accountNumbers db) :
    (transfer_funds_orm db f t a true).1 = db := by
  cases hfa : findAccount db f with
  | none => rw [transfer_funds_orm_sourceNotFound db f t a true hfa]
  | some fa =>
    by_cases hge : fa.balance < a
    · rw [transfer_funds_orm_insufficient db f t a true fa hfa hge]
    · cases hta : findAccount db t with
      | none => rw [transfer_funds_orm_destNotFound db f t a true fa hfa hge hta]
      | some ta =>
        rw [transfer_funds_orm_fault_rollback db f t a fa ta hfa hge hta hdup]

theorem rowcount_ne_zero_of_some (db : DB) (x : String) (a : Account)
    (h : findAccount db x = some a) : rowcount db x ≠ 0 := by
  intro h0
  rw [(rowcount_eq_zero_iff db x).mp h0] at h
  simp at h

/-! Claim theorems. -/

/-- C1 (counterexample): the claim fails on the ORM transfer.  On a
database that holds accounts `B1` and `B2` but no account numbered
`ACC001`, a transfer from `B1` to `B2` with `simulate_fault = true`
commits — the injected `Account('ACC001', 999)` violates no uniqueness
constraint — and the source balance drops from 100 to 90, so the deduction
persists. -/
theorem C1_counterexample :
    (transfer_funds_orm [⟨"B1", 100⟩, ⟨"B2", 50⟩] "B1" "B2" 10 true).2 = .committed
    ∧ findAccount [⟨"B1", 100⟩, ⟨"B2", 50⟩] "B1" = some ⟨"B1", 100⟩
    ∧ findAccount (transfer_funds_orm [⟨"B1", 100⟩, ⟨"B2", 50⟩] "B1" "B2" 10 true).1 "B1"
        = some ⟨"B1", 90⟩ := by
  decide

/-- C1 (amended): every Core transfer invocation with `simulate_fault =
true` leaves the database unchanged (so in particular the source balance is
restored by the rollback); the same holds for the ORM transfer whenever an
account numbered `ACC001` — the target of the duplicate-key fault — already
exists, as it does in the seeded demonstration database. -/
theorem C1_fault_atomicity :
    (∀ (db : DB) (f t : String) (a : Int), (transfer_funds db f t a true).1 = db)
    ∧ (∀ (db : DB) (f t : String) (a : Int), "ACC001" ∈ accountNumbers db →
        (transfer_funds_orm db f t a true).1 = db) :=
  ⟨transfer_funds_fault_fst, transfer_funds_orm_fault_fst⟩

/-- C1 (witness): the amended atomicity property evaluated on the two
faulting demonstration transfers. -/
theorem C1_witness :
    (transfer_funds initial_accounts "ACC001" "ACC003" 50 true).1 = initial_accounts
    ∧ (transfer_funds_orm initial_accounts_orm "ACC001" "ACC003" 500 true).1 =
        initial_accounts_orm :=
  ⟨C1_fault_atomicity.1 initial_accounts "ACC001" "ACC003" 50,
   C1_fault_atomicity.2 initial_accounts_orm "ACC001" "ACC003" 500 (by decide)⟩

/-- C3 (counterexample): in the Core transfer the claim fails.  On the
seeded database a faulting transfer is aborted by the explicitly raised
simulated exception, not by a uniqueness violation: the row the fault path
inserts is numbered `ACC999`, which is no duplicate of any existing
account number. -/
theorem C3_counterexample :
    transfer_funds initial_accounts "ACC001" "ACC003" 50 true =
      (initial_accounts, .rolledBack .simulatedFailure)
    ∧ TransferError.simulatedFailure ≠ TransferError.integrityError
    ∧ "ACC999" ∉ accountNumbers initial_accounts := by
  decide

/-- C3 (amended): the ORM transfer injects its fault by inserting a row
with the duplicate account number `ACC001`, so that the uniqueness
constraint makes the commit fail with an `IntegrityError`; the Core
transfer instead inserts a row with the fresh number `ACC999` (no duplicate
when no `ACC999` row exists) and aborts by raising an explicit simulated
exception before the commit is reached. -/
theorem C3_fault_mechanism :
    (∀ (db : DB) (f t : String) (a : Int),
      rowcount db f ≠ 0 → "ACC999" ∉ accountNumbers db →
      transfer_funds db f t a true = (db, .rolledBack .simulatedFailure))
    ∧ (∀ (db : DB) (f t : String) (a : Int) (fa ta : Account),
      findAccount db f = some fa → ¬ fa.balance < a → findAccount db t = some ta →
      "ACC001" ∈ accountNumbers db →
      transfer_funds_orm db f t a true = (db, .rolledBack .integrityError)) :=
  ⟨transfer_funds_fault_simulated, transfer_funds_orm_fault_rollback⟩

/-- C3 (witness): the fault mechanisms evaluated on the two faulting
demonstration transfers. -/
theorem C3_witness :
    transfer_funds initial_accounts "ACC001" "ACC003" 50 true =
      (initial_accounts, .rolledBack .simulatedFailure)
    ∧ transfer_funds_orm initial_accounts_orm "ACC001" "ACC003" 500 true =
      (initial_accounts_orm, .rolledBack .integrityError) :=
  ⟨C3_fault_mechanism.1 initial_accounts "ACC001" "ACC003" 50 (by decide) (by decide),
   C3_fault_mechanism.2 initial_accounts_orm "ACC001" "ACC003" 500
     ⟨"ACC001", 1000⟩ ⟨"ACC003", 200⟩ (by decide) (by decide) (by decide) (by decide)⟩

/-- C5: the demonstration scenario of the Core script.  From the seeded
balances, the transfer of 100 from `ACC001` to `ACC002` commits and yields
900/2100/3000; the subsequent transfer of 50 from `ACC001` to `ACC003`
with the fault enabled rolls back leaving those balances unchanged; the
subsequent transfer from the nonexistent `NON_EXISTENT_ACC` to `ACC002`
rolls back with a NotFound-class failure, again leaving the balances
unchanged. -/
theorem C5_scenario :
    transfer_funds initial_accounts "ACC001" "ACC002" 100 false =
      (accounts_after_first_transfer, .committed)
    ∧ transfer_funds accounts_after_first_transfer "ACC001" "ACC003" 50 true =
      (accounts_after_first_transfer, .rolledBack .simulatedFailure)
    ∧ transfer_funds accounts_after_first_transfer "NON_EXISTENT_ACC" "ACC002" 100 false =
      (accounts_after_first_transfer, .rolledBack .sourceNotFound)
    ∧ TransferError.sourceNotFound.isNotFound = true := by
  decide

/-- C6 (counterexample): the claim fails.  When a store-level error aborts
the Core script's body, the catch-all reports it but the process exits with
status 0, not a non-zero status; and the ORM script has no catch-all at
all, so the same error reaches the process boundary uncaught. -/
theorem C6_counterexample :
    core_script_exit_code (some "connection lost") = 0
    ∧ orm_script_uncaught (some "connection lost") = true
    ∧ orm_script_exit_code (some "connection lost") = 1 := by
  decide

/-- C6 (amended): the Core transactions script wraps its body in a
catch-all that keeps any error away from the process boundary but then
exits with status 0; the ORM transactions script does not wrap its body, so
an error raised there propagates uncaught and the interpreter exits with
status 1.  On fault-free runs neither script lets an exception escape. -/
theorem C6_toplevel_handling :
    (∀ e : String, core_script_uncaught (some e) = false
      ∧ core_script_exit_code (some e) = 0)
    ∧ (∀ e : String, orm_script_uncaught (some e) = true
      ∧ orm_script_exit_code (some e) = 1)
    ∧ core_script_uncaught none = false
    ∧ orm_script_uncaught none = false :=
  ⟨fun _ => ⟨rfl, rfl⟩, fun _ => ⟨rfl, rfl⟩, rfl, rfl⟩

/-- C7: in the ORM transfer, if the source account exists but its balance
is strictly below the amount, the raised `ValueError` is caught locally,
the transaction is rolled back, and the function returns with the durable
state unchanged — every account balance is as before and no exception
escapes the function. -/
theorem C7_insufficient_funds (db : DB) (f t : String) (a : Int) (sf : Bool)
    (fa : Account) (h : findAccount db f = some fa) (hlt : fa.balance < a) :
    transfer_funds_orm db f t a sf = (db, .rolledBack .insufficientFunds) :=
  transfer_funds_orm_insufficient db f t a sf fa h hlt

/-- C7 (witness): an attempted transfer of 1000 out of `ACC003` (balance
200) is rejected for insufficient funds and changes nothing. -/
theorem C7_witness :
    transfer_funds_orm initial_accounts_orm "ACC003" "ACC001" 1000 false =
      (initial_accounts_orm, .rolledBack .insufficientFunds) :=
  C7_insufficient_funds initial_accounts_orm "ACC003" "ACC001" 1000 false
    ⟨"ACC003", 200⟩ (by decide) (by decide)

/-- C8: both balance readers return the rows sorted by `account_number` in
ascending order whatever the insertion order of the database (the output is
a sorted permutation of the rows), and neither read mutates the store. -/
theorem C8_ordering (db : DB) :
    List.Sorted byAccountNumber (get_account_balances db).1
    ∧ (get_account_balances db).1.Perm db
    ∧ (get_account_balances db).2 = db
    ∧ List.Sorted byAccountNumber (get_account_balances_orm db).1
    ∧ (get_account_balances_orm db).1.Perm db
    ∧ (get_account_balances_orm db).2 = db :=
  ⟨List.sorted_insertionSort byAccountNumber db,
   List.perm_insertionSort byAccountNumber db, rfl,
   List.sorted_insertionSort byAccountNumber db,
   List.perm_insertionSort byAccountNumber db, rfl⟩

/-- C9 (counterexample): the claim fails on the ORM transfer.  A transfer
from `ACC001` to itself with `simulate_fault = false` on an existing
account is rejected — the insufficient-funds check fires when the amount
exceeds the balance — rather than being allowed unconditionally. -/
theorem C9_counterexample :
    transfer_funds_orm initial_accounts_orm "ACC001" "ACC001" 5000 false =
      (initial_accounts_orm, .rolledBack .insufficientFunds)
    ∧ findAccount initial_accounts_orm "ACC001" = some ⟨"ACC001", 1000⟩ := by
  decide

/-- C9 (amended): a transfer whose source and destination identifiers are
equal and refer to an existing account, with `simulate_fault = false`, is
not rejected for being a self-transfer: the Core transfer always commits
it, and the ORM transfer commits it whenever the balance covers the amount
(otherwise the ordinary insufficient-funds rejection applies).  In every
committing case the deduction followed by the credit of the same amount to
the same row leaves the database — in particular that account's balance —
exactly as before. -/
theorem C9_self_transfer :
    (∀ (db : DB) (t : String) (a : Int), rowcount db t ≠ 0 →
      transfer_funds db t t a false = (db, .committed))
    ∧ (∀ (db : DB) (t : String) (a : Int) (fa : Account),
      findAccount db t = some fa → ¬ fa.balance < a →
      transfer_funds_orm db t t a false = (db, .committed)) := by
  constructor
  · intro db t a hrc
    have hdb : applyUpdate (applyUpdate db t (fun b => b - a)) t (fun b => b + a) = db := by
      rw [applyUpdate_applyUpdate_self]
      exact applyUpdate_id db t _ (fun b => by ring)
    exact (transfer_funds_committed_iff db t t a false db).mpr ⟨rfl, hrc, hrc, hdb.symm⟩
  · intro db t a fa hfa hge
    have hdb : applyUpdateFirst (applyUpdateFirst db t (fun b => b - a)) t
        (fun b => b + a) = db := by
      rw [applyUpdateFirst_applyUpdateFirst_self]
      exact applyUpdateFirst_id db t _ (fun b => by ring)
    rw [transfer_funds_orm_commit_nofault db t t a fa fa hfa hge hfa, hdb]

/-- C9 (witness): self-transfers evaluated on the seeded databases. -/
theorem C9_witness :
    transfer_funds initial_accounts "ACC001" "ACC001" 100 false =
      (initial_accounts, .committed)
    ∧ transfer_funds_orm initial_accounts_orm "ACC002" "ACC002" 300 false =
      (initial_accounts_orm, .committed) :=
  ⟨C9_self_transfer.1 initial_accounts "ACC001" 100 (by decide),
   C9_self_transfer.2 initial_accounts_orm "ACC002" 300 ⟨"ACC002", 500⟩
     (by decide) (by decide)⟩

/-- C10: the Core transfer checks no funds sufficiency.  Between two
distinct existing accounts, with `simulate_fault = false` and an amount
strictly above the source balance, the transfer still commits and the
source account's balance becomes negative. -/
theorem C10_no_sufficiency_check (db : DB) (f t : String) (a : Int) (fa : Account)
    (hft : f ≠ t) (hfa : findAccount db f = some fa) (hrt : rowcount db t ≠ 0)
    (hlt : fa.balance < a) :
    (transfer_funds db f t a false).2 = .committed
    ∧ findAccount (transfer_funds db f t a false).1 f = some ⟨f, fa.balance - a⟩
    ∧ fa.balance - a < 0 := by
  have hrf : rowcount db f ≠ 0 := rowcount_ne_zero_of_some db f fa hfa
  have hpair := (transfer_funds_committed_iff db f t a false
    (applyUpdate (applyUpdate db f (fun b => b - a)) t (fun b => b + a))).mpr
    ⟨rfl, hrf, hrt, rfl⟩
  have hfn := findAccount_some_number db f fa hfa
  have h1 : (transfer_funds db f t a false).1 =
      applyUpdate (applyUpdate db f (fun b => b - a)) t (fun b => b + a) := by
    rw [hpair]
  have h2 : (transfer_funds db f t a false).2 = .committed := by
    rw [hpair]
  refine ⟨h2, ?_, by omega⟩
  rw [h1, findAccount_applyUpdate_ne _ _ _ _ hft, findAccount_applyUpdate_self, hfa]
  simp [hfn]

/-- C2: conservation for every committing transfer between two distinct
existing accounts, in both variants.  The source comes out debited by the
amount, the destination credited by it, their balance sum is unchanged, and
every other pre-existing account row is reported unchanged by a subsequent
read. -/
theorem C2_conservation :
    (∀ (db : DB) (f t : String) (a : Int) (sf : Bool) (fa ta : Account),
      f ≠ t → findAccount db f = some fa → findAccount db t = some ta →
      (transfer_funds db f t a sf).2 = .committed →
      findAccount (transfer_funds db f t a sf).1 f = some ⟨f, fa.balance - a⟩
      ∧ findAccount (transfer_funds db f t a sf).1 t = some ⟨t, ta.balance + a⟩
      ∧ fa.balance - a + (ta.balance + a) = fa.balance + ta.balance
      ∧ ∀ (x : String) (b : Account), x ≠ f → x ≠ t →
          findAccount db x = some b →
          findAccount (transfer_funds db f t a sf).1 x = some b)
    ∧ (∀ (db : DB) (f t : String) (a : Int) (sf : Bool) (fa ta : Account),
      f ≠ t → findAccount db f = some fa → findAccount db t = some ta →
      (transfer_funds_orm db f t a sf).2 = .committed →
      findAccount (transfer_funds_orm db f t a sf).1 f = some ⟨f, fa.balance - a⟩
      ∧ findAccount (transfer_funds_orm db f t a sf).1 t = some ⟨t, ta.balance + a⟩
      ∧ fa.balance - a + (ta.balance + a) = fa.balance + ta.balance
      ∧ ∀ (x : String) (b : Account), x ≠ f → x ≠ t →
          findAccount db x = some b →
          findAccount (transfer_funds_orm db f t a sf).1 x = some b) := by
  constructor
  · intro db f t a sf fa ta hft hfa hta hcommit
    have hfn := findAccount_some_number db f fa hfa
    have htn := findAccount_some_number db t ta hta
    have hpair : transfer_funds db f t a sf =
        ((transfer_funds db f t a sf).1, .committed) := by
      rw [← hcommit]
    obtain ⟨hsf, hrf, hrt, hdb⟩ :=
      (transfer_funds_committed_iff db f t a sf
        ((transfer_funds db f t a sf).1)).mp hpair
    refine ⟨?_, ?_, by ring, ?_⟩
    · rw [hdb, findAccount_applyUpdate_ne _ _ _ _ hft,
        findAccount_applyUpdate_self, hfa]
      simp [hfn]
    · rw [hdb, findAccount_applyUpdate_self,
        findAccount_applyUpdate_ne _ _ _ _ (Ne.symm hft), hta]
      simp [htn]
    · intro x b hxf hxt hx
      rw [hdb, findAccount_applyUpdate_ne _ _ _ _ hxt,
        findAccount_applyUpdate_ne _ _ _ _ hxf, hx]
  · intro db f t a sf fa ta hft hfa hta hcommit
    have hfn := findAccount_some_number db f fa hfa
    have htn := findAccount_some_number db t ta hta
    by_cases hge : fa.balance < a
    · rw [transfer_funds_orm_insufficient db f t a sf fa hfa hge] at hcommit
      simp at hcommit
    · have hdb2f : findAccount
          (applyUpdateFirst (applyUpdateFirst db f (fun b => b - a)) t
            (fun b => b + a)) f = some ⟨f, fa.balance - a⟩ := by
        rw [findAccount_applyUpdateFirst_ne _ _ _ _ hft,
          findAccount_applyUpdateFirst_self, hfa]
        simp [hfn]
      have hdb2t : findAccount
          (applyUpdateFirst (applyUpdateFirst db f (fun b => b - a)) t
            (fun b => b + a)) t = some ⟨t, ta.balance + a⟩ := by
        rw [findAccount_applyUpdateFirst_self,
          findAccount_applyUpdateFirst_ne _ _ _ _ (Ne.symm hft), hta]
        simp [htn]
      have hdb2frame : ∀ (x : String) (b : Account), x ≠ f → x ≠ t →
          findAccount db x = some b →
          findAccount
            (applyUpdateFirst (applyUpdateFirst db f (fun b => b - a)) t
              (fun b => b + a)) x = some b := by
        intro x b hxf hxt hx
        rw [findAccount_applyUpdateFirst_ne _ _ _ _ hxt,
          findAccount_applyUpdateFirst_ne _ _ _ _ hxf, hx]
      cases sf with
      | false =>
        have h1 : (transfer_funds_orm db f t a false).1 =
            applyUpdateFirst (applyUpdateFirst db f (fun b => b - a)) t
              (fun b => b + a) := by
          rw [transfer_funds_orm_commit_nofault db f t a fa ta hfa hge hta]
        rw [h1]
        exact ⟨hdb2f, hdb2t, by ring, hdb2frame⟩
      | true =>
        by_cases hdup : "ACC001" ∈ accountNumbers db
        · rw [transfer_funds_orm_fault_rollback db f t a fa ta hfa hge hta hdup]
            at hcommit
          simp at hcommit
        · have h1 : (transfer_funds_orm db f t a true).1 =
              applyUpdateFirst (applyUpdateFirst db f (fun b => b - a)) t
                (fun b => b + a) ++ [{ account_number := "ACC001", balance := 999 }] := by
            rw [transfer_funds_orm_fault_commit db f t a fa ta hfa hge hta hdup]
          rw [h1]
          exact ⟨findAccount_append_left _ _ _ _ hdb2f,
            findAccount_append_left _ _ _ _ hdb2t, by ring,
            fun x b hxf hxt hx =>
              findAccount_append_left _ _ _ _ (hdb2frame x b hxf hxt hx)⟩

/-- C2 (witness): conservation evaluated on the first demonstration
transfer of each script. -/
theorem C2_witness :
    (findAccount (transfer_funds initial_accounts "ACC001" "ACC002" 100 false).1
        "ACC001" = some ⟨"ACC001", 1000 - 100⟩
      ∧ findAccount (transfer_funds initial_accounts "ACC001" "ACC002" 100 false).1
          "ACC002" = some ⟨"ACC002", 2000 + 100⟩
      ∧ (1000 - 100 : Int) + (2000 + 100) = 1000 + 2000
      ∧ ∀ (x : String) (b : Account), x ≠ "ACC001" → x ≠ "ACC002" →
          findAccount initial_accounts x = some b →
          findAccount (transfer_funds initial_accounts "ACC001" "ACC002" 100 false).1 x
            = some b)
    ∧ (findAccount (transfer_funds_orm initial_accounts_orm "ACC001" "ACC002" 200 false).1
        "ACC001" = some ⟨"ACC001", 1000 - 200⟩
      ∧ findAccount (transfer_funds_orm initial_accounts_orm "ACC001" "ACC002" 200 false).1
          "ACC002" = some ⟨"ACC002", 500 + 200⟩
      ∧ (1000 - 200 : Int) + (500 + 200) = 1000 + 500
      ∧ ∀ (x : String) (b : Account), x ≠ "ACC001" → x ≠ "ACC002" →
          findAccount initial_accounts_orm x = some b →
          findAccount (transfer_funds_orm initial_accounts_orm "ACC001" "ACC002" 200 false).1 x
            = some b) :=
  ⟨C2_conservation.1 initial_accounts "ACC001" "ACC002" 100 false
      ⟨"ACC001", 1000⟩ ⟨"ACC002", 2000⟩ (by decide) (by decide) (by decide) (by decide),
   C2_conservation.2 initial_accounts_orm "ACC001" "ACC002" 200 false
      ⟨"ACC001", 1000⟩ ⟨"ACC002", 500⟩ (by decide) (by decide) (by decide) (by decide)⟩

/-- C4 (counterexample): the claim fails on the Core transfer when the
fault is also enabled.  With an existing source and a nonexistent
destination but `simulate_fault = true`, the simulated exception fires
before the destination check, so the reported failure is not a
NotFound-class one (the balances are still unchanged). -/
theorem C4_counterexample :
    findAccount initial_accounts "NOPE" = none
    ∧ transfer_funds initial_accounts "ACC001" "NOPE" 10 true =
        (initial_accounts, .rolledBack .simulatedFailure)
    ∧ TransferError.simulatedFailure.isNotFound = false := by
  decide

/-- C4 (amended): transferring from or to a nonexistent account number
leaves all balances unchanged and lets no exception escape, and the
reported failure is NotFound-class except where another failure preempts
the destination check: in the Core transfer with `simulate_fault = true`
the simulated fault fires first (the database is still returned unchanged),
and in the ORM transfer an insufficient source balance is reported first.
A missing source is always reported as NotFound, and with
`simulate_fault = false` (Core) or sufficient funds (ORM) a missing
destination is too. -/
theorem C4_notfound_handling :
    TransferError.sourceNotFound.isNotFound = true
    ∧ TransferError.destNotFound.isNotFound = true
    ∧ (∀ (db : DB) (f t : String) (a : Int) (sf : Bool),
      findAccount db f = none →
      transfer_funds db f t a sf = (db, .rolledBack .sourceNotFound))
    ∧ (∀ (db : DB) (f t : String) (a : Int) (fa : Account),
      findAccount db f = some fa → findAccount db t = none →
      transfer_funds db f t a false = (db, .rolledBack .destNotFound))
    ∧ (∀ (db : DB) (f t : String) (a : Int) (sf : Bool),
      findAccount db f = none →
      transfer_funds_orm db f t a sf = (db, .rolledBack .sourceNotFound))
    ∧ (∀ (db : DB) (f t : String) (a : Int) (sf : Bool) (fa : Account),
      findAccount db f = some fa → ¬ fa.balance < a → findAccount db t = none →
      transfer_funds_orm db f t a sf = (db, .rolledBack .destNotFound))
    ∧ (∀ (db : DB) (f t : String) (a : Int), findAccount db t = none →
      (transfer_funds db f t a true).1 = db) :=
  ⟨rfl, rfl,
   transfer_funds_sourceNotFound,
   fun db f t a fa hfa ht =>
     transfer_funds_destNotFound db f t a (rowcount_ne_zero_of_some db f fa hfa) ht,
   transfer_funds_orm_sourceNotFound,
   fun db f t a sf fa hfa hge ht =>
     transfer_funds_orm_destNotFound db f t a sf fa hfa hge ht,
   fun db f t a _ => transfer_funds_fault_fst db f t a⟩

/-- C4 (witness): the not-found paths evaluated on the seeded databases,
including the demonstration transfer from the nonexistent account. -/
theorem C4_witness :
    transfer_funds initial_accounts "NON_EXISTENT_ACC" "ACC002" 100 false =
      (initial_accounts, .rolledBack .sourceNotFound)
    ∧ transfer_funds initial_accounts "ACC001" "NOPE" 10 false =
      (initial_accounts, .rolledBack .destNotFound)
    ∧ transfer_funds_orm initial_accounts_orm "NONEXISTENT" "ACC001" 100 false =
      (initial_accounts_orm, .rolledBack .sourceNotFound)
    ∧ transfer_funds_orm initial_accounts_orm "ACC001" "NOPE" 100 false =
      (initial_accounts_orm, .rolledBack .destNotFound)
    ∧ (transfer_funds initial_accounts "ACC001" "NOPE" 10 true).1 = initial_accounts :=
  ⟨C4_notfound_handling.2.2.1 initial_accounts "NON_EXISTENT_ACC" "ACC002" 100 false
      (by decide),
   C4_notfound_handling.2.2.2.1 initial_accounts "ACC001" "NOPE" 10 ⟨"ACC001", 1000⟩
      (by decide) (by decide),
   C4_notfound_handling.2.2.2.2.1 initial_accounts_orm "NONEXISTENT" "ACC001" 100 false
      (by decide),
   C4_notfound_handling.2.2.2.2.2.1 initial_accounts_orm "ACC001" "NOPE" 100 false
      ⟨"ACC001", 1000⟩ (by decide) (by decide) (by decide),
   C4_notfound_handling.2.2.2.2.2.2 initial_accounts "ACC001" "NOPE" 10 (by decide)⟩

/-- C10 (witness): transferring 5000 out of `ACC001` (balance 1000)
commits and leaves `ACC001` at -4000. -/
theorem C10_witness :
    (transfer_funds initial_accounts "ACC001" "ACC002" 5000 false).2 = .committed
    ∧ findAccount (transfer_funds initial_accounts "ACC001" "ACC002" 5000 false).1
        "ACC001" = some ⟨"ACC001", 1000 - 5000⟩
    ∧ (1000 - 5000 : Int) < 0 :=
  C10_no_sufficiency_check initial_accounts "ACC001" "ACC002" 5000 ⟨"ACC001", 1000⟩
    (by decide) (by decide) (by decide) (by decide)
